import Mathlib

/-!
Verification development for the PR-review automation script
(.github/scripts/request_copilot_review.py).

The script is shallowly embedded: environment variables, the event-payload
file, the helper subprocess and wall-clock time are explicit parameters;
Python exceptions are an explicit error type; CPython truthiness and the
relevant builtins (str.split with a one-character separator, int() on
strings, the `in` and subscript operators on parsed JSON values) are
modelled as total Lean functions.
-/

set_option maxRecDepth 4000
set_option linter.unusedVariables false

/-- Python exceptions that the script can raise. -/
inductive PyExn where
  | valueError
  | typeError
  | keyError
  | jsonDecodeError
  | attributeError
deriving DecidableEq

/-- Values produced by json.load / json.loads. JSON numbers are modelled as
integers, which covers every number the script inspects. -/
inductive JVal where
  | null
  | bool (b : Bool)
  | num (n : Int)
  | str (s : String)
  | arr (elems : List JVal)
  | obj (fields : List (String × JVal))

/-- Dictionary key lookup on the field list of a JSON object. -/
def lookupKey : List (String × JVal) → String → Option JVal
  | [], _ => Option.none
  | (k, v) :: rest, key => if k = key then Option.some v else lookupKey rest key

/-- True when the needle occurs as a contiguous run of the haystack
(Python substring membership on str). -/
def pySubstrAux : List Char → List Char → Bool
  | needle, [] => needle.isEmpty
  | needle, c :: t => needle.isPrefixOf (c :: t) || pySubstrAux needle t

/-- Python membership test key in v for a parsed JSON value: key lookup on a
dict, element equality on a list, substring test on a string, and a
TypeError on the remaining types. -/
def pyContains (v : JVal) (key : String) : Except PyExn Bool :=
  match v with
  | JVal.obj fields => Except.ok (lookupKey fields key).isSome
  | JVal.arr elems =>
      Except.ok (elems.any fun e =>
        match e with
        | JVal.str s => s = key
        | _ => false)
  | JVal.str s => Except.ok (pySubstrAux key.toList s.toList)
  | _ => Except.error PyExn.typeError

/-- Python subscript v[key] with a string key on a parsed JSON value: a
KeyError on a dict without the key, a TypeError on every non-dict. -/
def pyGetItem (v : JVal) (key : String) : Except PyExn JVal :=
  match v with
  | JVal.obj fields =>
      match lookupKey fields key with
      | Option.some x => Except.ok x
      | Option.none => Except.error PyExn.keyError
  | _ => Except.error PyExn.typeError

/-- CPython truthiness of a parsed JSON value. -/
def jFalsy : JVal → Bool
  | JVal.null => true
  | JVal.bool b => !b
  | JVal.num n => n = 0
  | JVal.str s => s = ""
  | JVal.arr elems => elems.isEmpty
  | JVal.obj fields => fields.isEmpty

/-- The characters that str.strip() removes by default (ASCII range). -/
def isPySpace (c : Char) : Bool :=
  c = ' ' || c = '\t' || c = '\n' || c = '\r' || c = '\x0b' || c = '\x0c'

/-- Remove trailing stripped characters. -/
def stripEnd (l : List Char) : List Char :=
  (l.reverse.dropWhile isPySpace).reverse

/-- Remove leading and trailing stripped characters, as str.strip(). -/
def pyStrip (l : List Char) : List Char :=
  stripEnd (l.dropWhile isPySpace)

/-- Decimal digit test. -/
def isDigitCh (c : Char) : Bool :=
  decide ('0' ≤ c) && decide (c ≤ '9')

/-- Numeric value of a decimal digit character. -/
def digitVal (c : Char) : Nat := c.toNat - 48

/-- Digit run after the first digit: digits, with single underscores
allowed between two digits (the int() grammar). -/
def digitsCore : Nat → List Char → Option Nat
  | acc, [] => Option.some acc
  | acc, c :: cs =>
    if isDigitCh c then digitsCore (10 * acc + digitVal c) cs
    else if c = '_' then
      match cs with
      | d :: _ => if isDigitCh d then digitsCore acc cs else Option.none
      | [] => Option.none
    else Option.none

/-- A nonempty digit run starting with a digit. -/
def parseDigits : List Char → Option Nat
  | [] => Option.none
  | c :: cs => if isDigitCh c then digitsCore (digitVal c) cs else Option.none

/-- CPython int() applied to a string, base 10: optional surrounding
whitespace, optional sign, then a digit run; any other shape raises
ValueError, modelled as Option.none. -/
def pyIntOfString (s : String) : Option Int :=
  match pyStrip s.toList with
  | '+' :: rest => (parseDigits rest).map Int.ofNat
  | '-' :: rest => (parseDigits rest).map (fun n => -(Int.ofNat n))
  | rest => (parseDigits rest).map Int.ofNat

/-- str.split with a one-character separator, on the character list:
"a/b" gives two groups, a string without the separator gives one group,
the empty string gives one empty group. -/
def splitCh (sep : Char) : List Char → List (List Char)
  | [] => [[]]
  | c :: cs =>
    if c = sep then [] :: splitCh sep cs
    else
      match splitCh sep cs with
      | [] => [[c]]
      | g :: gs => (c :: g) :: gs

/-- str.split with a one-character separator. -/
def pySplit (s : String) (sep : Char) : List String :=
  (splitCh sep s.toList).map fun cs => String.mk cs

/-- A file or protocol line holding text that either is valid JSON or is
not; json.loads succeeds exactly on the valid case. -/
inductive JsonDoc where
  | invalid (s : String)
  | valid (v : JVal)

/-- The environment variables that get_pull_request_info reads. -/
structure Env where
  github_repository : Option String
  pr_number : Option String
  github_event_path : Option String

/-- The value bound to the local variable pr_number: initially None, a
string from the environment, or a JSON value from the event file. -/
inductive PrNum where
  | none
  | ofStr (s : String)
  | ofJson (v : JVal)

/-- CPython truthiness of the pr_number local. -/
def prFalsy : PrNum → Bool
  | PrNum.none => true
  | PrNum.ofStr s => s = ""
  | PrNum.ofJson v => jFalsy v

/-- CPython int() applied to the pr_number local: identity on an integer,
string parsing on a string, and a TypeError on None and on the container
types. -/
def pyInt : PrNum → Except PyExn Int
  | PrNum.none => Except.error PyExn.typeError
  | PrNum.ofStr s =>
      match pyIntOfString s with
      | Option.some n => Except.ok n
      | Option.none => Except.error PyExn.valueError
  | PrNum.ofJson (JVal.num n) => Except.ok n
  | PrNum.ofJson (JVal.str s) =>
      match pyIntOfString s with
      | Option.some n => Except.ok n
      | Option.none => Except.error PyExn.valueError
  | PrNum.ofJson (JVal.bool b) => Except.ok (if b then 1 else 0)
  | PrNum.ofJson _ => Except.error PyExn.typeError

/-- The event-file inspection block of get_pull_request_info (lines 35-41
of the script): first the pull_request branch, then the issue-comment
branch, each via the Python membership and subscript operators. -/
def resolveEventNumber (event_data : JVal) (pr0 : PrNum) : Except PyExn PrNum :=
  match pyContains event_data "pull_request" with
  | Except.error e => Except.error e
  | Except.ok true =>
    match pyGetItem event_data "pull_request" with
    | Except.error e => Except.error e
    | Except.ok pv =>
      match pyGetItem pv "number" with
      | Except.error e => Except.error e
      | Except.ok nv => Except.ok (PrNum.ofJson nv)
  | Except.ok false =>
    match pyContains event_data "issue" with
    | Except.error e => Except.error e
    | Except.ok true =>
      match pyGetItem event_data "issue" with
      | Except.error e => Except.error e
      | Except.ok iv =>
        match pyContains iv "pull_request" with
        | Except.error e => Except.error e
        | Except.ok true =>
          match pyGetItem iv "number" with
          | Except.error e => Except.error e
          | Except.ok nv => Except.ok (PrNum.ofJson nv)
        | Except.ok false => Except.ok pr0
    | Except.ok false => Except.ok pr0

/-- Resolution of the pr_number local (lines 27-41): the PR_NUMBER
environment variable when truthy, otherwise the event-payload file named
by GITHUB_EVENT_PATH when that variable is truthy and the file exists;
a file that exists but is not valid JSON makes json.load raise. -/
def readPrNumber (env : Env) (fs : String → Option JsonDoc) : Except PyExn PrNum :=
  let pr0 : PrNum :=
    match env.pr_number with
    | Option.none => PrNum.none
    | Option.some s => PrNum.ofStr s
  if prFalsy pr0 then
    match env.github_event_path with
    | Option.some path =>
      if path = "" then Except.ok pr0
      else
        match fs path with
        | Option.some (JsonDoc.valid event_data) => resolveEventNumber event_data pr0
        | Option.some (JsonDoc.invalid _) => Except.error PyExn.jsonDecodeError
        | Option.none => Except.ok pr0
    | Option.none => Except.ok pr0
  else Except.ok pr0

/-- get_pull_request_info (lines 13-47): Except.ok Option.none is the
(None, None, None) return; Except.error is an uncaught exception. The
two-variable unpacking of repository.split raises ValueError unless the
split yields exactly two parts. -/
def get_pull_request_info (env : Env) (fs : String → Option JsonDoc) :
    Except PyExn (Option (String × String × Int)) :=
  let repository := env.github_repository.getD ""
  if repository = "" then Except.ok Option.none
  else
    match pySplit repository '/' with
    | [owner, repo] =>
      match readPrNumber env fs with
      | Except.error e => Except.error e
      | Except.ok pr1 =>
        if prFalsy pr1 then Except.ok Option.none
        else
          match pyInt pr1 with
          | Except.error e => Except.error e
          | Except.ok n => Except.ok (Option.some (owner, repo, n))
    | _ => Except.error PyExn.valueError

/-- One step of the response handler inside the polling loop
(lines 159-182): the loop body either returns a boolean, leaves the loop
through break, or raises out of the try block. -/
inductive PollStep where
  | ret (b : Bool)
  | brk
  | exn (e : PyExn)

/-- The body run on one nonempty response line (lines 157-184): a line
json.loads rejects is logged and reaches the break. In the error branch
the source then subscripts response_data (a TypeError when the parsed
value is a string or list whose membership test succeeded) and calls .get
on the extracted payload (an AttributeError when that payload is not a
dict) before returning False; in the result branch it subscripts
response_data before returning True; with neither membership the
unexpected-response log is printed and the break is reached. TypeError
and AttributeError escape the inner except clause, which only catches
json.JSONDecodeError. -/
def handleLine : JsonDoc → PollStep
  | JsonDoc.invalid _ => PollStep.brk
  | JsonDoc.valid v =>
    match pyContains v "error" with
    | Except.error e => PollStep.exn e
    | Except.ok true =>
      match pyGetItem v "error" with
      | Except.error e => PollStep.exn e
      | Except.ok (JVal.obj efields) => PollStep.ret false
      | Except.ok _ => PollStep.exn PyExn.attributeError
    | Except.ok false =>
      match pyContains v "result" with
      | Except.error e => PollStep.exn e
      | Except.ok true =>
        match pyGetItem v "result" with
        | Except.error e => PollStep.exn e
        | Except.ok _ => PollStep.ret true
      | Except.ok false => PollStep.brk

/-- Outcome of the polling loop together with its continuation: a return
value (the timeout fallthrough and the break both end in return False), an
exception escaping the try block, or no outcome at all because a read
blocks forever. -/
inductive PollResult where
  | ret (b : Bool)
  | exn (e : PyExn)
  | blocked

/-- The loop iterations in which readline has no pending line: while the
ceiling has not elapsed, a closed stream yields an immediate empty read
followed by the 0.1 s sleep (one fuel unit per iteration), and an open
stream makes readline block with no data ever arriving. Fuel 0 is the
while condition failing: the timeout message is printed and False
returned. -/
def idleLoop : Nat → Bool → PollResult
  | 0, _ => PollResult.ret false
  | Nat.succ f, closed => if closed then idleLoop f closed else PollResult.blocked

/-- The polling loop (lines 153-188) over the pending stdout lines of the
helper. Each pending line is a pair of its arrival delay in 0.1 s units
and its content; closed records whether the helper end of the pipe is
closed after those lines. The while condition is checked before the read,
so a pending line is handled whenever any fuel remains; readline blocks
until the line arrives, and every nonempty line leaves the loop through
return or break, so no delay arithmetic is needed on this path. -/
def pollLoopAux : List (Nat × JsonDoc) → Nat → Bool → PollResult
  | [], fuel, closed => idleLoop fuel closed
  | (_, ln) :: _, fuel, _ =>
    match fuel with
    | 0 => PollResult.ret false
    | Nat.succ _ =>
      match handleLine ln with
      | PollStep.ret b => PollResult.ret b
      | PollStep.brk => PollResult.ret false
      | PollStep.exn e => PollResult.exn e

/-- The polling loop entered with the full 30 s (300 sleep units) budget. -/
def pollLoop (events : List (Nat × JsonDoc)) (closed : Bool) : PollResult :=
  pollLoopAux events 300 closed

/-- Modelled from the spec: the response handler as section 4.3 step 7
describes it, for comparison with handleLine. A line that fails to parse,
or parses to something without an error or result field, is non-terminal
and the wait continues. -/
def handleLineSpec : JsonDoc → Option Bool
  | JsonDoc.invalid _ => Option.none
  | JsonDoc.valid v =>
    match v with
    | JVal.obj fields =>
      if (lookupKey fields "error").isSome then Option.some false
      else if (lookupKey fields "result").isSome then Option.some true
      else Option.none
    | _ => Option.none

/-- Modelled from the spec: the polling loop as section 4.3 step 7
describes it, for comparison with pollLoopAux. A non-terminal line costs
its arrival delay from the budget and polling continues with the
remaining lines. -/
def pollLoopSpecAux : List (Nat × JsonDoc) → Nat → Bool → PollResult
  | [], fuel, closed => idleLoop fuel closed
  | (d, ln) :: rest, fuel, closed =>
    match fuel with
    | 0 => PollResult.ret false
    | Nat.succ _ =>
      match handleLineSpec ln with
      | Option.some b => PollResult.ret b
      | Option.none => pollLoopSpecAux rest (fuel - d) closed

/-- Modelled from the spec: the polling loop of section 4.3 step 7 entered
with the full 30 s budget. -/
def pollLoopSpec (events : List (Nat × JsonDoc)) (closed : Bool) : PollResult :=
  pollLoopSpecAux events 300 closed

/-- The state of the helper subprocess when request_copilot_review
returns (or, for a run that never returns, at the point it blocks). -/
inductive ProcState where
  | notLaunched
  | running
  | terminated
  | killed
deriving DecidableEq

/-- The external world request_copilot_review runs against: the
GITHUB_TOKEN variable, whether the helper executable exists in the working
directory, whether Popen and the stdin writes succeed, the stdout lines
the helper produces with their arrival delays, whether the helper closes
its stdout after them, and whether the process exits within the 5 s grace
period after terminate. -/
structure World where
  github_token : Option String
  server_exists : Bool
  launch_ok : Bool
  stdin_ok : Bool
  stdout : List (Nat × JsonDoc)
  closed : Bool
  exits5 : Bool

/-- CPython truthiness of an optional environment string. -/
def pyStrFalsy : Option String → Bool
  | Option.none => true
  | Option.some s => s = ""

/-- What the function returns (Option.none when it never returns), the
final subprocess state, and how many protocol messages were written. -/
structure RunResult where
  ret : Option Bool
  proc : ProcState
  msgs : Nat
deriving DecidableEq

/-- The finally block (lines 195-201): terminate, wait up to 5 s, and on
the wait timing out (or terminate raising) kill. -/
def cleanup (w : World) : ProcState :=
  if w.exits5 then ProcState.terminated else ProcState.killed

/-- Map a polling outcome through the rest of the function: a return value
passes through the finally block; an exception is caught by the outer
except clause, which returns False, again through the finally block; a
blocked read never reaches either, leaving the subprocess running. -/
def finish (w : World) (pr : PollResult) (msgs : Nat) : RunResult :=
  match pr with
  | PollResult.ret b => { ret := Option.some b, proc := cleanup w, msgs := msgs }
  | PollResult.exn _ => { ret := Option.some false, proc := cleanup w, msgs := msgs }
  | PollResult.blocked => { ret := Option.none, proc := ProcState.running, msgs := msgs }

/-- request_copilot_review (lines 65-204). Missing or empty GITHUB_TOKEN
and a missing helper executable return False before Popen; a Popen failure
is caught with the process still unassigned; a stdin write failure is
caught and cleaned up. Otherwise the initialize acknowledgment is read
first: with no pending line this readline blocks forever on an open pipe,
and returns an empty string on a closed one (the script continues either
way); then the review request is written and the polling loop runs on the
remaining lines. The owner, repo and pull_number arguments only shape the
outgoing messages, never the outcome. -/
def request_copilot_review (owner repo : String) (pull_number : Int) (w : World) : RunResult :=
  if pyStrFalsy w.github_token then
    { ret := Option.some false, proc := ProcState.notLaunched, msgs := 0 }
  else if w.server_exists = false then
    { ret := Option.some false, proc := ProcState.notLaunched, msgs := 0 }
  else if w.launch_ok = false then
    { ret := Option.some false, proc := ProcState.notLaunched, msgs := 0 }
  else if w.stdin_ok = false then
    { ret := Option.some false, proc := cleanup w, msgs := 0 }
  else
    match w.stdout with
    | [] =>
      if w.closed then finish w (pollLoop [] w.closed) 2
      else { ret := Option.none, proc := ProcState.running, msgs := 1 }
    | _ :: rest => finish w (pollLoop rest w.closed) 2

/-- The parsed command-line arguments of main (argparse leaves an unset
option as None). -/
structure Args where
  owner : Option String
  repo : Option String
  pr : Option String

/-- CPython truthiness of an argparse option. -/
def argTruthy : Option String → Bool
  | Option.none => false
  | Option.some s => s ≠ ""

/-- How main obtains its target before calling the client: a resolved
(owner, repo, number) triple, a sys.exit(1) path, or an uncaught
exception (which also ends the interpreter with status 1). -/
inductive Resolution where
  | target (owner repo : String) (number : Int)
  | exitFail
  | crash (e : PyExn)

/-- The target-resolution half of main (lines 215-221): when all three
options are truthy they are used directly, with int applied to the pr
option; otherwise get_pull_request_info runs and a falsy owner, repo or
number exits with status 1. -/
def resolveTarget (args : Args) (env : Env) (fs : String → Option JsonDoc) : Resolution :=
  if argTruthy args.owner && argTruthy args.repo && argTruthy args.pr then
    match pyIntOfString (args.pr.getD "") with
    | Option.some n => Resolution.target (args.owner.getD "") (args.repo.getD "") n
    | Option.none => Resolution.crash PyExn.valueError
  else
    match get_pull_request_info env fs with
    | Except.error e => Resolution.crash e
    | Except.ok Option.none => Resolution.exitFail
    | Except.ok (Option.some (owner, repo, n)) =>
      if owner = "" || repo = "" || n = 0 then Resolution.exitFail
      else Resolution.target owner repo n

/-- The observable end of a run of main: a process exit status, or no
termination at all. -/
inductive MainOutcome where
  | exitCode (c : Nat)
  | blocked
deriving DecidableEq

/-- The tail of main (lines 226-233): exit 0 when the client returns True,
exit 1 when it returns False, and no exit when it never returns. -/
def runClient (owner repo : String) (n : Int) (w : World) : MainOutcome :=
  match (request_copilot_review owner repo n w).ret with
  | Option.some true => MainOutcome.exitCode 0
  | Option.some false => MainOutcome.exitCode 1
  | Option.none => MainOutcome.blocked

/-- main (lines 206-233): resolve the target, then run the client; both
failure resolutions end the process with status 1 (sys.exit(1), or the
interpreter status for an uncaught exception). -/
def mainRun (args : Args) (env : Env) (fs : String → Option JsonDoc) (w : World) : MainOutcome :=
  match resolveTarget args env fs with
  | Resolution.target owner repo n => runClient owner repo n w
  | Resolution.exitFail => MainOutcome.exitCode 1
  | Resolution.crash _ => MainOutcome.exitCode 1

/-- splitCh on a list without the separator yields that single group. -/
theorem splitCh_no_sep (sep : Char) (l : List Char) (h : l.contains sep = false) :
    splitCh sep l = [l] := by
  induction l with
  | nil => rfl
  | cons c cs ih =>
    simp only [List.contains_cons, Bool.or_eq_false_iff, beq_eq_false_iff_ne] at h
    have hc : ¬ c = sep := fun hEq => h.1 hEq.symm
    simp only [splitCh, if_neg hc, ih h.2]

/-- pySplit on a string without the separator yields that single string. -/
theorem pySplit_no_sep (s : String) (sep : Char) (h : s.toList.contains sep = false) :
    pySplit s sep = [s] := by
  simp only [pySplit, splitCh_no_sep sep s.toList h, List.map]
  rfl

/-- idleLoop on a closed stream always reaches the timeout return. -/
theorem idleLoop_closed (f : Nat) : idleLoop f true = PollResult.ret false := by
  induction f with
  | zero => rfl
  | succ f ih => simpa [idleLoop] using ih

/-- C2 counterexample: with the repository identifier set to a value
without a separator, get_pull_request_info raises ValueError (the
two-variable unpacking of the one-element split result fails); it does not
return the empty result. -/
theorem get_pull_request_info_noslash_counterexample :
    get_pull_request_info
      { github_repository := Option.some "noslash", pr_number := Option.none,
        github_event_path := Option.none } (fun _ => Option.none) =
      Except.error PyExn.valueError := rfl

/-- C2 amended: for every non-empty repository identifier containing no
separator, the resolver raises ValueError rather than returning the empty
result; only an absent or empty identifier yields the empty result. -/
theorem get_pull_request_info_raises_without_slash (env : Env)
    (fs : String → Option JsonDoc)
    (hne : env.github_repository.getD "" ≠ "")
    (hns : (env.github_repository.getD "").toList.contains '/' = false) :
    get_pull_request_info env fs = Except.error PyExn.valueError := by
  unfold get_pull_request_info
  simp only [if_neg hne, pySplit_no_sep _ '/' hns]

/-- Witness for the amended C2 statement at a concrete environment. -/
theorem get_pull_request_info_raises_without_slash_witness :
    get_pull_request_info
      { github_repository := Option.some "abc", pr_number := Option.none,
        github_event_path := Option.none } (fun _ => Option.none) =
      Except.error PyExn.valueError :=
  get_pull_request_info_raises_without_slash _ _ (by decide) (by decide)

/-- C10: a non-empty, non-decimal PR_NUMBER override makes the resolver
raise ValueError at the final int conversion instead of returning the
empty result, so resolution is partial over such inputs. -/
theorem get_pull_request_info_nondecimal_override_raises (env : Env)
    (fs : String → Option JsonDoc) (o r s : String)
    (hne : env.github_repository.getD "" ≠ "")
    (hsplit : pySplit (env.github_repository.getD "") '/' = [o, r])
    (hpr : env.pr_number = Option.some s) (hs : s ≠ "")
    (hbad : pyIntOfString s = Option.none) :
    get_pull_request_info env fs = Except.error PyExn.valueError := by
  unfold get_pull_request_info readPrNumber
  simp only [if_neg hne, hsplit, hpr]
  simp [prFalsy, hs, pyInt, hbad]

/-- Witness for C10 at a concrete environment. -/
theorem get_pull_request_info_nondecimal_override_raises_witness :
    get_pull_request_info
      { github_repository := Option.some "o/r", pr_number := Option.some "abc",
        github_event_path := Option.none } (fun _ => Option.none) =
      Except.error PyExn.valueError :=
  get_pull_request_info_nondecimal_override_raises _ _ "o" "r" "abc"
    (by decide) rfl rfl (by decide) rfl

/-- C6: the pull-request number is resolved in priority order. A truthy
PR_NUMBER override that parses as an integer is used whatever the event
file holds; otherwise an event file with a pull_request object yields its
number field; otherwise an issue object that also carries a pull_request
key yields its number field. -/
theorem get_pull_request_info_number_priority (env : Env)
    (fs : String → Option JsonDoc) (o r : String)
    (hne : env.github_repository.getD "" ≠ "")
    (hsplit : pySplit (env.github_repository.getD "") '/' = [o, r]) :
    (∀ s n, env.pr_number = Option.some s → s ≠ "" → pyIntOfString s = Option.some n →
        get_pull_request_info env fs = Except.ok (Option.some (o, r, n)))
  ∧ (∀ path fields pfields n,
        pyStrFalsy env.pr_number = true →
        env.github_event_path = Option.some path → path ≠ "" →
        fs path = Option.some (JsonDoc.valid (JVal.obj fields)) →
        lookupKey fields "pull_request" = Option.some (JVal.obj pfields) →
        lookupKey pfields "number" = Option.some (JVal.num n) → n ≠ 0 →
        get_pull_request_info env fs = Except.ok (Option.some (o, r, n)))
  ∧ (∀ path fields ifields pv n,
        pyStrFalsy env.pr_number = true →
        env.github_event_path = Option.some path → path ≠ "" →
        fs path = Option.some (JsonDoc.valid (JVal.obj fields)) →
        lookupKey fields "pull_request" = Option.none →
        lookupKey fields "issue" = Option.some (JVal.obj ifields) →
        lookupKey ifields "pull_request" = Option.some pv →
        lookupKey ifields "number" = Option.some (JVal.num n) → n ≠ 0 →
        get_pull_request_info env fs = Except.ok (Option.some (o, r, n))) := by
  refine ⟨?_, ?_, ?_⟩
  · intro s n hpr hs hint
    unfold get_pull_request_info readPrNumber
    simp only [if_neg hne, hsplit, hpr]
    simp [prFalsy, hs, pyInt, hint]
  · intro path fields pfields n hprf hpath hpne hfs hlk hnum hn
    have hpr0 : prFalsy (match env.pr_number with
        | Option.none => PrNum.none
        | Option.some s => PrNum.ofStr s) = true := by
      cases henv : env.pr_number with
      | none => simp [prFalsy]
      | some s =>
        rw [henv] at hprf
        simpa [prFalsy, pyStrFalsy] using hprf
    unfold get_pull_request_info readPrNumber
    simp only [if_neg hne, hsplit, hpr0, hpath, if_pos rfl, if_neg hpne, hfs]
    unfold resolveEventNumber
    simp [pyContains, pyGetItem, hlk, hnum, prFalsy, jFalsy, hn, pyInt]
  · intro path fields ifields pv n hprf hpath hpne hfs hnolk hiss hip hnum hn
    have hpr0 : prFalsy (match env.pr_number with
        | Option.none => PrNum.none
        | Option.some s => PrNum.ofStr s) = true := by
      cases henv : env.pr_number with
      | none => simp [prFalsy]
      | some s =>
        rw [henv] at hprf
        simpa [prFalsy, pyStrFalsy] using hprf
    unfold get_pull_request_info readPrNumber
    simp only [if_neg hne, hsplit, hpr0, hpath, if_pos rfl, if_neg hpne, hfs]
    unfold resolveEventNumber
    simp [pyContains, pyGetItem, hnolk, hiss, hip, hnum, prFalsy, jFalsy, hn, pyInt]

/-- Witness for C6: each priority branch evaluated at a concrete
environment; in the first conjunct the event file names number 99 and the
override 5 still wins. -/
theorem get_pull_request_info_number_priority_witness :
    get_pull_request_info
      { github_repository := Option.some "o/r", pr_number := Option.some "5",
        github_event_path := Option.some "ev" }
      (fun _ => Option.some (JsonDoc.valid
        (JVal.obj [("pull_request", JVal.obj [("number", JVal.num 99)])]))) =
      Except.ok (Option.some ("o", "r", 5))
  ∧ get_pull_request_info
      { github_repository := Option.some "o/r", pr_number := Option.none,
        github_event_path := Option.some "ev" }
      (fun _ => Option.some (JsonDoc.valid
        (JVal.obj [("pull_request", JVal.obj [("number", JVal.num 42)])]))) =
      Except.ok (Option.some ("o", "r", 42))
  ∧ get_pull_request_info
      { github_repository := Option.some "o/r", pr_number := Option.none,
        github_event_path := Option.some "ev" }
      (fun _ => Option.some (JsonDoc.valid
        (JVal.obj [("issue", JVal.obj [("pull_request", JVal.null),
                                       ("number", JVal.num 7)])]))) =
      Except.ok (Option.some ("o", "r", 7)) :=
  ⟨(get_pull_request_info_number_priority
      { github_repository := Option.some "o/r", pr_number := Option.some "5",
        github_event_path := Option.some "ev" }
      (fun _ => Option.some (JsonDoc.valid
        (JVal.obj [("pull_request", JVal.obj [("number", JVal.num 99)])])))
      "o" "r" (by decide) rfl).1 "5" 5 rfl (by decide) rfl,
   (get_pull_request_info_number_priority
      { github_repository := Option.some "o/r", pr_number := Option.none,
        github_event_path := Option.some "ev" }
      (fun _ => Option.some (JsonDoc.valid
        (JVal.obj [("pull_request", JVal.obj [("number", JVal.num 42)])])))
      "o" "r" (by decide) rfl).2.1
      "ev" _ _ 42 rfl rfl (by decide) rfl rfl rfl (by decide),
   (get_pull_request_info_number_priority
      { github_repository := Option.some "o/r", pr_number := Option.none,
        github_event_path := Option.some "ev" }
      (fun _ => Option.some (JsonDoc.valid
        (JVal.obj [("issue", JVal.obj [("pull_request", JVal.null),
                                       ("number", JVal.num 7)])])))
      "o" "r" (by decide) rfl).2.2
      "ev" _ _ JVal.null 7 rfl rfl (by decide) rfl rfl rfl rfl rfl (by decide)⟩

/-- C1 counterexample: the claim predicts that after a line that fails to
parse the client keeps polling and reaches the result line that follows,
returning success; the loop modelled from the spec text does exactly that,
but the loop in the code leaves the while through the break after the
first line and ends in the timeout return of False. -/
theorem pollLoop_vs_spec_counterexample :
    pollLoop [(0, JsonDoc.invalid "not json"),
              (0, JsonDoc.valid (JVal.obj [("result", JVal.num 1)]))] true =
      PollResult.ret false
  ∧ pollLoopSpec [(0, JsonDoc.invalid "not json"),
              (0, JsonDoc.valid (JVal.obj [("result", JVal.num 1)]))] true =
      PollResult.ret true :=
  ⟨rfl, rfl⟩

/-- C1 amended: when the first response line fails to parse, or parses to
a value with neither an error nor a result field, the loop logs it and
stops polling: whatever further lines are pending, it falls out of the
while and the function returns failure. -/
theorem pollLoop_stops_on_nonterminal_line (d : Nat)
    (rest : List (Nat × JsonDoc)) (closed : Bool) :
    (∀ s, pollLoop ((d, JsonDoc.invalid s) :: rest) closed = PollResult.ret false)
  ∧ (∀ v, pyContains v "error" = Except.ok false →
      pyContains v "result" = Except.ok false →
      pollLoop ((d, JsonDoc.valid v) :: rest) closed = PollResult.ret false) := by
  refine ⟨fun s => rfl, fun v h1 h2 => ?_⟩
  simp [pollLoop, pollLoopAux, handleLine, h1, h2]

/-- Witness for the amended C1 statement on concrete lines, with a further
line pending in each case. -/
theorem pollLoop_stops_on_nonterminal_line_witness :
    pollLoop [(0, JsonDoc.invalid "x"),
              (0, JsonDoc.valid (JVal.obj [("result", JVal.num 1)]))] true =
      PollResult.ret false
  ∧ pollLoop [(0, JsonDoc.valid (JVal.obj [])),
              (0, JsonDoc.valid (JVal.obj [("result", JVal.num 1)]))] true =
      PollResult.ret false :=
  ⟨(pollLoop_stops_on_nonterminal_line 0
      [(0, JsonDoc.valid (JVal.obj [("result", JVal.num 1)]))] true).1 "x",
   (pollLoop_stops_on_nonterminal_line 0
      [(0, JsonDoc.valid (JVal.obj [("result", JVal.num 1)]))] true).2
      (JVal.obj []) rfl rfl⟩

/-- C5: the 30-second ceiling is only enforced between reads. When the
helper never replies but has closed its output, every read returns the
empty string at once and the loop ends in the timeout return of False at
about 30 seconds; when the helper never replies and keeps the pipe open,
readable() is still true (it reports stream capability, not pending
data), readline blocks with no timeout, and the function never returns. -/
theorem pollLoop_silent_helper_behavior :
    pollLoop [] false = PollResult.blocked
  ∧ pollLoop [] true = PollResult.ret false :=
  ⟨rfl, rfl⟩

/-- C3: for the first parsed response to the review request (the line the
polling loop handles after the initialization acknowledgment), when it
parses to a mapping: an error field makes the client return False (either
directly, or through the outer except clause when the error payload has no
.get attribute), a result field with no error field makes it return True,
and a True return arises in no other way. -/
theorem request_review_error_result_outcomes
    (owner repo : String) (pull_number : Int) (w : World)
    (htok : pyStrFalsy w.github_token = false)
    (hsrv : w.server_exists = true) (hln : w.launch_ok = true)
    (hsi : w.stdin_ok = true)
    (init : Nat × JsonDoc) (d : Nat) (fields : List (String × JVal))
    (rest : List (Nat × JsonDoc))
    (hout : w.stdout = init :: (d, JsonDoc.valid (JVal.obj fields)) :: rest) :
    ((lookupKey fields "error").isSome = true →
      (request_copilot_review owner repo pull_number w).ret = Option.some false)
  ∧ (lookupKey fields "error" = Option.none →
      (lookupKey fields "result").isSome = true →
      (request_copilot_review owner repo pull_number w).ret = Option.some true)
  ∧ ((request_copilot_review owner repo pull_number w).ret = Option.some true ↔
      lookupKey fields "error" = Option.none ∧
        (lookupKey fields "result").isSome = true) := by
  have hreq : request_copilot_review owner repo pull_number w =
      finish w (pollLoopAux ((d, JsonDoc.valid (JVal.obj fields)) :: rest) 300
        w.closed) 2 := by
    simp [request_copilot_review, htok, hsrv, hln, hsi, hout, pollLoop]
  refine ⟨fun h1 => ?_, fun h1 h2 => ?_, ?_⟩
  · obtain ⟨err, herr⟩ := Option.isSome_iff_exists.mp h1
    rw [hreq]
    cases err <;>
      simp [pollLoopAux, handleLine, pyContains, pyGetItem, herr, finish]
  · obtain ⟨rv, hrv⟩ := Option.isSome_iff_exists.mp h2
    rw [hreq]
    simp [pollLoopAux, handleLine, pyContains, pyGetItem, h1, hrv, finish]
  · constructor
    · intro h
      rw [hreq] at h
      cases herr : lookupKey fields "error" with
      | some err =>
        cases err <;>
          simp [pollLoopAux, handleLine, pyContains, pyGetItem, herr, finish] at h
      | none =>
        cases hres : lookupKey fields "result" with
        | none =>
          simp [pollLoopAux, handleLine, pyContains, pyGetItem, herr, hres,
            finish] at h
        | some rv => exact ⟨rfl, rfl⟩
    · intro h
      obtain ⟨rv, hrv⟩ := Option.isSome_iff_exists.mp h.2
      rw [hreq]
      simp [pollLoopAux, handleLine, pyContains, pyGetItem, h.1, hrv, finish]

/-- Witness for C3: a helper replying with a result mapping gives success
and one replying with an error mapping gives failure, at concrete
worlds. -/
theorem request_review_error_result_outcomes_witness :
    (request_copilot_review "o" "r" 5
      { github_token := Option.some "t", server_exists := true, launch_ok := true,
        stdin_ok := true,
        stdout := [(0, JsonDoc.valid JVal.null),
                   (0, JsonDoc.valid (JVal.obj [("result", JVal.num 1)]))],
        closed := true, exits5 := true }).ret = Option.some true
  ∧ (request_copilot_review "o" "r" 5
      { github_token := Option.some "t", server_exists := true, launch_ok := true,
        stdin_ok := true,
        stdout := [(0, JsonDoc.valid JVal.null),
                   (0, JsonDoc.valid (JVal.obj [("error",
                      JVal.obj [("code", JVal.num 1), ("message", JVal.str "x")])]))],
        closed := true, exits5 := true }).ret = Option.some false :=
  ⟨(request_review_error_result_outcomes "o" "r" 5
      { github_token := Option.some "t", server_exists := true, launch_ok := true,
        stdin_ok := true,
        stdout := [(0, JsonDoc.valid JVal.null),
                   (0, JsonDoc.valid (JVal.obj [("result", JVal.num 1)]))],
        closed := true, exits5 := true }
      rfl rfl rfl rfl (0, JsonDoc.valid JVal.null) 0
      [("result", JVal.num 1)] [] rfl).2.1 rfl rfl,
   (request_review_error_result_outcomes "o" "r" 5
      { github_token := Option.some "t", server_exists := true, launch_ok := true,
        stdin_ok := true,
        stdout := [(0, JsonDoc.valid JVal.null),
                   (0, JsonDoc.valid (JVal.obj [("error",
                      JVal.obj [("code", JVal.num 1), ("message", JVal.str "x")])]))],
        closed := true, exits5 := true }
      rfl rfl rfl rfl (0, JsonDoc.valid JVal.null) 0
      [("error", JVal.obj [("code", JVal.num 1), ("message", JVal.str "x")])]
      [] rfl).1 rfl⟩

/-- Every run of the client ends in one of three subprocess states: never
launched, blocked forever with the process running and no return value, or
cleaned up through the finally block. -/
theorem request_copilot_review_proc_spec (owner repo : String) (pull_number : Int)
    (w : World) :
    (request_copilot_review owner repo pull_number w).proc = ProcState.notLaunched
  ∨ ((request_copilot_review owner repo pull_number w).ret = Option.none
      ∧ (request_copilot_review owner repo pull_number w).proc = ProcState.running)
  ∨ (request_copilot_review owner repo pull_number w).proc = cleanup w := by
  obtain ⟨tok, srv, lk, si, sout, cl, e5⟩ := w
  simp only [request_copilot_review]
  cases htok : pyStrFalsy tok
  · cases srv
    · simp [htok]
    · cases lk
      · simp [htok]
      · cases si
        · simp [htok]
        · cases sout with
          | nil =>
            cases cl
            · simp
            · simp [finish, pollLoop, pollLoopAux, idleLoop_closed]
          | cons hd tl =>
            cases hpl : pollLoop tl cl with
            | ret b => simp [finish, hpl]
            | exn e => simp [finish, hpl]
            | blocked => simp [finish, hpl]
  · simp [htok]

/-- C4: whenever request_copilot_review returns, the subprocess is not
left running: either it was never launched, or the finally block has run,
ending in the terminated state exactly when the process exits within the
5-second grace period and in the killed state exactly when it does not. -/
theorem request_review_subprocess_cleanup
    (owner repo : String) (pull_number : Int) (w : World)
    (hret : ((request_copilot_review owner repo pull_number w).ret).isSome = true) :
    (request_copilot_review owner repo pull_number w).proc ≠ ProcState.running
  ∧ ((request_copilot_review owner repo pull_number w).proc = ProcState.terminated →
      w.exits5 = true)
  ∧ ((request_copilot_review owner repo pull_number w).proc = ProcState.killed →
      w.exits5 = false) := by
  rcases request_copilot_review_proc_spec owner repo pull_number w with h | ⟨hn, hp⟩ | h
  · rw [h]
    exact ⟨by simp, by simp, by simp⟩
  · rw [hn] at hret
    simp at hret
  · rw [h]
    unfold cleanup
    cases he : w.exits5 <;> simp

/-- Witness for C4 at a concrete world in which the helper replies and the
process exits within the grace period. -/
theorem request_review_subprocess_cleanup_witness :
    ((request_copilot_review "o" "r" 5
      { github_token := Option.some "t", server_exists := true, launch_ok := true,
        stdin_ok := true,
        stdout := [(0, JsonDoc.valid JVal.null),
                   (0, JsonDoc.valid (JVal.obj [("result", JVal.num 1)]))],
        closed := true, exits5 := true }).ret).isSome = true
  ∧ (request_copilot_review "o" "r" 5
      { github_token := Option.some "t", server_exists := true, launch_ok := true,
        stdin_ok := true,
        stdout := [(0, JsonDoc.valid JVal.null),
                   (0, JsonDoc.valid (JVal.obj [("result", JVal.num 1)]))],
        closed := true, exits5 := true }).proc ≠ ProcState.running :=
  ⟨rfl,
   (request_review_subprocess_cleanup "o" "r" 5
      { github_token := Option.some "t", server_exists := true, launch_ok := true,
        stdin_ok := true,
        stdout := [(0, JsonDoc.valid JVal.null),
                   (0, JsonDoc.valid (JVal.obj [("result", JVal.num 1)]))],
        closed := true, exits5 := true } rfl).1⟩

/-- C7: with GITHUB_TOKEN absent or the helper executable missing from the
working directory, the client returns False at once: no subprocess is
launched and no protocol message is written. -/
theorem request_review_missing_token_or_server
    (owner repo : String) (pull_number : Int) (w : World)
    (h : w.github_token = Option.none ∨ w.server_exists = false) :
    request_copilot_review owner repo pull_number w =
      { ret := Option.some false, proc := ProcState.notLaunched, msgs := 0 } := by
  rcases h with h | h
  · simp [request_copilot_review, h, pyStrFalsy]
  · cases ht : pyStrFalsy w.github_token <;>
      simp [request_copilot_review, ht, h]

/-- Witness for C7 in both directions of the disjunction. -/
theorem request_review_missing_token_or_server_witness :
    request_copilot_review "o" "r" 5
      { github_token := Option.none, server_exists := true, launch_ok := true,
        stdin_ok := true, stdout := [], closed := true, exits5 := true } =
      { ret := Option.some false, proc := ProcState.notLaunched, msgs := 0 }
  ∧ request_copilot_review "o" "r" 5
      { github_token := Option.some "t", server_exists := false, launch_ok := true,
        stdin_ok := true, stdout := [], closed := true, exits5 := true } =
      { ret := Option.some false, proc := ProcState.notLaunched, msgs := 0 } :=
  ⟨request_review_missing_token_or_server "o" "r" 5
      { github_token := Option.none, server_exists := true, launch_ok := true,
        stdin_ok := true, stdout := [], closed := true, exits5 := true }
      (Or.inl rfl),
   request_review_missing_token_or_server "o" "r" 5
      { github_token := Option.some "t", server_exists := false, launch_ok := true,
        stdin_ok := true, stdout := [], closed := true, exits5 := true }
      (Or.inr rfl)⟩

/-- C8: a run of main ends with exit status 0 exactly when the target
resolves and the client returns True on it; every resolution failure
(sys.exit or uncaught exception) and every False return from the client
ends with status 1, and no other status ever occurs. -/
theorem mainRun_exit_codes (args : Args) (env : Env)
    (fs : String → Option JsonDoc) (w : World) :
    (∀ o r n, resolveTarget args env fs = Resolution.target o r n →
      (mainRun args env fs w = MainOutcome.exitCode 0 ↔
        (request_copilot_review o r n w).ret = Option.some true))
  ∧ (resolveTarget args env fs = Resolution.exitFail →
      mainRun args env fs w = MainOutcome.exitCode 1)
  ∧ (∀ e, resolveTarget args env fs = Resolution.crash e →
      mainRun args env fs w = MainOutcome.exitCode 1)
  ∧ (∀ c, mainRun args env fs w = MainOutcome.exitCode c → c = 0 ∨ c = 1) := by
  refine ⟨?_, ?_, ?_, ?_⟩
  · intro o r n h
    simp only [mainRun, h, runClient]
    cases hr : (request_copilot_review o r n w).ret with
    | none => simp [hr]
    | some b => cases b <;> simp [hr]
  · intro h
    simp [mainRun, h]
  · intro e h
    simp [mainRun, h]
  · intro c h
    simp only [mainRun] at h
    cases ht : resolveTarget args env fs with
    | target o r n =>
      rw [ht] at h
      simp only [runClient] at h
      cases hr : (request_copilot_review o r n w).ret with
      | none => rw [hr] at h; simp at h
      | some b =>
        rw [hr] at h
        cases b <;> simp_all
    | exitFail =>
      rw [ht] at h
      simp only [MainOutcome.exitCode.injEq] at h
      omega
    | crash e =>
      rw [ht] at h
      simp only [MainOutcome.exitCode.injEq] at h
      omega

/-- Witness for C8: a fully supplied command line and a helper that
replies with a result end the process with status 0. -/
theorem mainRun_exit_codes_witness :
    mainRun { owner := Option.some "o", repo := Option.some "r", pr := Option.some "5" }
      { github_repository := Option.none, pr_number := Option.none,
        github_event_path := Option.none } (fun _ => Option.none)
      { github_token := Option.some "t", server_exists := true, launch_ok := true,
        stdin_ok := true,
        stdout := [(0, JsonDoc.valid JVal.null),
                   (0, JsonDoc.valid (JVal.obj [("result", JVal.num 1)]))],
        closed := true, exits5 := true } = MainOutcome.exitCode 0 :=
  ((mainRun_exit_codes
      { owner := Option.some "o", repo := Option.some "r", pr := Option.some "5" }
      { github_repository := Option.none, pr_number := Option.none,
        github_event_path := Option.none } (fun _ => Option.none)
      { github_token := Option.some "t", server_exists := true, launch_ok := true,
        stdin_ok := true,
        stdout := [(0, JsonDoc.valid JVal.null),
                   (0, JsonDoc.valid (JVal.obj [("result", JVal.num 1)]))],
        closed := true, exits5 := true }).1 "o" "r" 5 rfl).mpr rfl

/-- C9: when the three command-line overrides are all truthy, neither the
environment nor the event-payload file influences the run: target
resolution and the whole outcome of main are the same for any two
environments and filesystems. -/
theorem mainRun_args_bypass_env (args : Args) (env env2 : Env)
    (fs fs2 : String → Option JsonDoc) (w : World)
    (ho : argTruthy args.owner = true) (hr : argTruthy args.repo = true)
    (hp : argTruthy args.pr = true) :
    resolveTarget args env fs = resolveTarget args env2 fs2
  ∧ mainRun args env fs w = mainRun args env2 fs2 w := by
  have h : ∀ (e : Env) (f : String → Option JsonDoc),
      resolveTarget args e f =
        match pyIntOfString (args.pr.getD "") with
        | Option.some n =>
            Resolution.target (args.owner.getD "") (args.repo.getD "") n
        | Option.none => Resolution.crash PyExn.valueError := by
    intro e f
    simp [resolveTarget, ho, hr, hp]
  refine ⟨by rw [h env fs, h env2 fs2], ?_⟩
  unfold mainRun
  rw [h env fs, h env2 fs2]

/-- Witness for C9: with all three overrides present, two environments
that would resolve to different targets leave the outcome of main
unchanged. -/
theorem mainRun_args_bypass_env_witness :
    mainRun { owner := Option.some "o", repo := Option.some "r", pr := Option.some "5" }
      { github_repository := Option.some "x/y", pr_number := Option.some "9",
        github_event_path := Option.none } (fun _ => Option.none)
      { github_token := Option.none, server_exists := true, launch_ok := true,
        stdin_ok := true, stdout := [], closed := true, exits5 := true } =
    mainRun { owner := Option.some "o", repo := Option.some "r", pr := Option.some "5" }
      { github_repository := Option.none, pr_number := Option.none,
        github_event_path := Option.none } (fun _ => Option.none)
      { github_token := Option.none, server_exists := true, launch_ok := true,
        stdin_ok := true, stdout := [], closed := true, exits5 := true } :=
  (mainRun_args_bypass_env
      { owner := Option.some "o", repo := Option.some "r", pr := Option.some "5" }
      { github_repository := Option.some "x/y", pr_number := Option.some "9",
        github_event_path := Option.none }
      { github_repository := Option.none, pr_number := Option.none,
        github_event_path := Option.none }
      (fun _ => Option.none) (fun _ => Option.none)
      { github_token := Option.none, server_exists := true, launch_ok := true,
        stdin_ok := true, stdout := [], closed := true, exits5 := true }
      rfl rfl rfl).2
